import Mathlib

/-!
Shallow embedding of the NeoPencil backend (src/main.py, src/schemas.py).

The document store is modelled as a `Store` structure holding one list per
collection (`product`, `cartitem`, `order`, `subscription`).  Generated
document ids are drawn from a `nextId` counter.  Python floats used for
prices are modelled as exact rationals; Mongo's schema-flexible documents
are modelled with `Option` fields where an endpoint reads a field with a
default (`prod.get("base_price", 0.0)`, `prod.get("inventory", 0)`,
`prod.get("in_stock", True)`).  Each HTTP handler becomes a pure function
`Store → ... → Except Err ...`; raising `HTTPException` before any write is
modelled by returning `.error e`, which carries no state, matching the
source where every raise happens before the first store mutation of the
handler.  Pydantic model validation that happens inside a handler body
(constructing `CartItem` / `Subscription`) is modelled by an explicit check
returning `Err.validation`.  The `try/except: pass` around each inventory
decrement in `checkout` is modelled by a failure oracle `fails : Nat → Bool`
giving, per item index, whether the update statement raises; a raised
update applies no state change, a completed one applies the `$inc`.
-/

namespace NeoPencil

/-- Errors surfaced by the handlers: `HTTPException`s raised in main.py plus
pydantic validation failures raised while constructing a schema model inside
a handler body. -/
inductive Err where
  | conflict
  | notFound
  | emptyCart
  | validation
deriving Repr, DecidableEq

/-- HTTP status attached to each error: 400 for duplicate slug and empty
cart, 404 for product-not-found; an uncaught pydantic error inside a handler
surfaces as a 500. -/
def Err.httpStatus : Err → Nat
  | .conflict => 400
  | .notFound => 404
  | .emptyCart => 400
  | .validation => 500

/-- A stored product document.  `base_price`, `in_stock` and `inventory` are
optional because the handlers read them with `.get(..., default)`. -/
structure ProductDoc where
  id : Nat
  slug : String
  title : String
  description : String
  base_price : Option ℚ
  in_stock : Option Bool
  inventory : Option Int
deriving Repr, DecidableEq

/-- The validated `Product` request body (schemas.py): all fields present,
`base_price ≥ 0` checked by pydantic (modelled as a runtime check in the
endpoint). -/
structure Product where
  slug : String
  title : String
  description : String
  base_price : ℚ
  in_stock : Bool := true
  inventory : Int := 100
deriving Repr, DecidableEq

/-- Inserting a validated `Product` stores a document with every field
present. -/
def Product.toDoc (p : Product) (id : Nat) : ProductDoc :=
  { id := id, slug := p.slug, title := p.title, description := p.description,
    base_price := some p.base_price, in_stock := some p.in_stock,
    inventory := some p.inventory }

/-- A stored cart item document (schemas.py CartItem). -/
structure CartItemDoc where
  id : Nat
  user_id : String
  product_id : Nat
  quantity : Int
  color : Option String
  texture : Option String
  selected_features : List String
  unit_price : ℚ
deriving Repr, DecidableEq

/-- The `AddToCart` request body (main.py): no `ge` bound on quantity here;
the bound is only on the `CartItem` schema model built inside the handler. -/
structure AddToCart where
  user_id : String
  product_slug : String
  quantity : Int := 1
  color : Option String := none
  texture : Option String := none
  selected_features : Option (List String) := none
deriving Repr, DecidableEq

/-- A snapshotted order line: a cart item with the `_id` key dropped
(`{k: v for k, v in it.items() if k != "_id"}`). -/
structure OrderItem where
  user_id : String
  product_id : Nat
  quantity : Int
  color : Option String
  texture : Option String
  selected_features : List String
  unit_price : ℚ
deriving Repr, DecidableEq

/-- Drop the `_id` of a cart item, keeping every other field. -/
def snapshotItem (it : CartItemDoc) : OrderItem :=
  { user_id := it.user_id, product_id := it.product_id,
    quantity := it.quantity, color := it.color, texture := it.texture,
    selected_features := it.selected_features, unit_price := it.unit_price }

/-- A stored order document (schemas.py Order). -/
structure OrderDoc where
  id : Nat
  user_id : String
  items : List OrderItem
  total_amount : ℚ
  status : String := "pending"
  subscription_id : Option Nat := none
deriving Repr, DecidableEq

/-- The `SubscriptionRequest` body (main.py): `plan` is a plain string here;
the `Literal` constraint lives on the `Subscription` schema model. -/
structure SubscriptionRequest where
  user_id : String
  product_slug : String
  plan : String := "monthly"
  refill_quantity : Int := 2
deriving Repr, DecidableEq

/-- A stored subscription document (schemas.py Subscription). -/
structure SubscriptionDoc where
  id : Nat
  user_id : String
  product_id : Nat
  plan : String
  status : String := "active"
  refill_quantity : Int
deriving Repr, DecidableEq

/-- The document store: one list per collection, in insertion order, plus
the id counter for generated `_id`s. -/
structure Store where
  products : List ProductDoc
  cartitems : List CartItemDoc
  orders : List OrderDoc
  subscriptions : List SubscriptionDoc
  nextId : Nat
deriving Repr, DecidableEq

/-- POST /api/products: reject when a product with the same slug already
exists (`find_one({"slug": ...})` is a first-match scan), otherwise insert
the document.  FastAPI validates the body (pydantic `base_price ≥ 0`) before
the handler runs. -/
def create_product_endpoint (st : Store) (p : Product) : Except Err Store :=
  if 0 ≤ p.base_price then
    match st.products.find? (fun d => d.slug == p.slug) with
    | some _ => .error .conflict
    | none =>
        .ok { st with
              products := st.products ++ [p.toDoc st.nextId],
              nextId := st.nextId + 1 }
  else .error .validation

/-- POST /api/cart/add: look up the product by slug (404 if absent), price
the line from `prod.get("base_price", 0.0)`, then build the `CartItem`
model — which validates `quantity ≥ 1` and `unit_price ≥ 0` — and insert
it. -/
def add_to_cart (st : Store) (body : AddToCart) : Except Err Store :=
  match st.products.find? (fun d => d.slug == body.product_slug) with
  | none => .error .notFound
  | some prod =>
      let price := prod.base_price.getD 0
      if 1 ≤ body.quantity ∧ 0 ≤ price then
        .ok { st with
              cartitems := st.cartitems ++
                [{ id := st.nextId, user_id := body.user_id,
                   product_id := prod.id, quantity := body.quantity,
                   color := body.color, texture := body.texture,
                   selected_features := body.selected_features.getD [],
                   unit_price := price }],
              nextId := st.nextId + 1 }
      else .error .validation

/-- Mongo `update_one({_id: pid}, {$inc: {inventory: -q}})`: update the
first document whose id matches; `$inc` on a missing field treats it as 0
and materialises it. -/
def decrementInventory (pid : Nat) (q : Int) : List ProductDoc → List ProductDoc
  | [] => []
  | p :: ps =>
      if p.id == pid then
        { p with inventory := some (p.inventory.getD 0 - q) } :: ps
      else p :: decrementInventory pid q ps

/-- The per-item decrement loop of checkout.  `fails i` says whether the
update statement for the item at index `i` raises; a raised statement is
swallowed by the `except: pass` and applies nothing. -/
def applyDecrements (fails : Nat → Bool) :
    List ProductDoc → Nat → List CartItemDoc → List ProductDoc
  | ps, _, [] => ps
  | ps, i, it :: rest =>
      let ps' := if fails i then ps
                 else decrementInventory it.product_id it.quantity ps
      applyDecrements fails ps' (i + 1) rest

/-- POST /api/checkout: load the user's cart items (400 if none), compute
`total = Σ unit_price × quantity` over them, persist the order with the
snapshot, best-effort decrement inventory per item, then delete the user's
cart items unconditionally and return the order id. -/
def checkout (st : Store) (user_id : String) (fails : Nat → Bool) :
    Except Err (Store × Nat) :=
  let items := st.cartitems.filter (fun it => it.user_id == user_id)
  if items.isEmpty then .error .emptyCart
  else
    let total := (items.map (fun it => it.unit_price * (it.quantity : ℚ))).sum
    let order : OrderDoc :=
      { id := st.nextId, user_id := user_id,
        items := items.map snapshotItem, total_amount := total }
    let st1 : Store := { st with
                         orders := st.orders ++ [order],
                         nextId := st.nextId + 1 }
    let st2 : Store := { st1 with
                         products := applyDecrements fails st1.products 0 items }
    let st3 : Store := { st2 with
                         cartitems :=
                           st2.cartitems.filter (fun it => !(it.user_id == user_id)) }
    .ok (st3, order.id)

/-- POST /api/subscriptions: look up the product by slug (404 if absent),
then build the `Subscription` model — which validates `plan` against its
`Literal` and `refill_quantity ≥ 1` — with status "active" and insert it,
returning the new id. -/
def create_subscription (st : Store) (req : SubscriptionRequest) :
    Except Err (Store × Nat) :=
  match st.products.find? (fun d => d.slug == req.product_slug) with
  | none => .error .notFound
  | some prod =>
      if req.plan ∈ ["monthly", "quarterly", "yearly"] ∧ 1 ≤ req.refill_quantity then
        .ok ({ st with
               subscriptions := st.subscriptions ++
                 [{ id := st.nextId, user_id := req.user_id,
                    product_id := prod.id, plan := req.plan,
                    refill_quantity := req.refill_quantity }],
               nextId := st.nextId + 1 }, st.nextId)
      else .error .validation

/-- GET /api/inventory/slug: 404 if the slug is absent, otherwise return
`prod.get("inventory", 0)` and `bool(prod.get("in_stock", True))`. -/
def get_inventory (st : Store) (slug : String) : Except Err (Int × Bool) :=
  match st.products.find? (fun d => d.slug == slug) with
  | none => .error .notFound
  | some prod => .ok (prod.inventory.getD 0, prod.in_stock.getD true)

/-! ### Concrete sample data, used to evaluate the theorems on real inputs -/

/-- A fully-populated catalog document. -/
def sampleProduct : ProductDoc :=
  { id := 0, slug := "pencil-x1", title := "Pencil X1", description := "demo",
    base_price := some 10, in_stock := some true, inventory := some 100 }

/-- A document missing the optional `base_price` / `in_stock` / `inventory`
keys, as a schema-flexible store permits. -/
def bareProduct : ProductDoc :=
  { id := 1, slug := "bare", title := "Bare", description := "demo",
    base_price := none, in_stock := none, inventory := none }

/-- One cart row for user `"u"`: two units of product 0 at captured price 10. -/
def sampleItem : CartItemDoc :=
  { id := 2, user_id := "u", product_id := 0, quantity := 2,
    color := none, texture := none, selected_features := [], unit_price := 10 }

/-- A store with two products and one cart row for user `"u"`. -/
def sampleStore : Store :=
  { products := [sampleProduct, bareProduct], cartitems := [sampleItem],
    orders := [], subscriptions := [], nextId := 3 }

/-- The sample store after user `"u"` checks out with no decrement failures:
inventory of product 0 drops by 2, the order for 20 is appended, the cart is
cleared. -/
def sampleStoreAfterCheckout : Store :=
  { products := [{ sampleProduct with inventory := some 98 }, bareProduct],
    cartitems := [],
    orders := [{ id := 3, user_id := "u", items := [snapshotItem sampleItem],
                 total_amount := 20 }],
    subscriptions := [],
    nextId := 4 }

/-- Handler results compare decidably, so the claims can be evaluated on
concrete stores. -/
instance {ε α : Type} [DecidableEq ε] [DecidableEq α] : DecidableEq (Except ε α)
  | .ok x, .ok y =>
      if h : x = y then .isTrue (by rw [h])
      else .isFalse (by intro hc; cases hc; exact h rfl)
  | .ok _, .error _ => .isFalse (by intro hc; cases hc)
  | .error _, .ok _ => .isFalse (by intro hc; cases hc)
  | .error e, .error f =>
      if h : e = f then .isTrue (by rw [h])
      else .isFalse (by intro hc; cases hc; exact h rfl)

/-- A request body re-using the already-taken slug `"pencil-x1"`. -/
def duplicateSlugProduct : Product :=
  { slug := "pencil-x1", title := "again", description := "d", base_price := 3 }

/-- The invariant claimed of every stored cart row: quantity at least 1 and
a nonnegative captured unit price (the `ge` bounds on the CartItem schema). -/
def CartInv (st : Store) : Prop :=
  ∀ it ∈ st.cartitems, 1 ≤ it.quantity ∧ 0 ≤ it.unit_price

instance (st : Store) : Decidable (CartInv st) :=
  inferInstanceAs (Decidable (∀ it ∈ st.cartitems, 1 ≤ it.quantity ∧ 0 ≤ it.unit_price))

/-- Comparison definition following the claim's words, for the failure-free
decrement pass of checkout: a catalog document referenced by at least one
cart item ends with inventory `old value (default 0) minus the total
quantity of the items referencing it`; a document referenced by no item is
untouched (Mongo `$inc` only materialises the field on documents it
updates). -/
def specExpectedInventory (items : List CartItemDoc) (d : ProductDoc) : ProductDoc :=
  if (items.filter (fun it => it.product_id == d.id)).isEmpty then d
  else { d with inventory := some (d.inventory.getD 0 -
    ((items.filter (fun it => it.product_id == d.id)).map (fun it => it.quantity)).sum) }

/-! ### Helper lemmas shared by the claim theorems -/

/-- A successful checkout, spelled out: with a non-empty cart for `uid` the
handler returns the fully-updated store and the new order id. -/
theorem checkout_eq_of_ne_nil (st : Store) (uid : String) (fails : Nat → Bool)
    (h : st.cartitems.filter (fun it => it.user_id == uid) ≠ []) :
    checkout st uid fails = .ok
      ({ products := applyDecrements fails st.products 0
           (st.cartitems.filter (fun it => it.user_id == uid)),
         cartitems := st.cartitems.filter (fun it => !(it.user_id == uid)),
         orders := st.orders ++
           [{ id := st.nextId, user_id := uid,
              items := (st.cartitems.filter (fun it => it.user_id == uid)).map snapshotItem,
              total_amount := ((st.cartitems.filter (fun it => it.user_id == uid)).map
                (fun it => it.unit_price * (it.quantity : ℚ))).sum }],
         subscriptions := st.subscriptions,
         nextId := st.nextId + 1 }, st.nextId) := by
  have hne : (st.cartitems.filter (fun it => it.user_id == uid)).isEmpty = false := by
    simp [List.isEmpty_eq_false, h]
  simp [checkout, hne]

/-- Checkout on an empty cart raises before any write. -/
theorem checkout_eq_of_nil (st : Store) (uid : String) (fails : Nat → Bool)
    (h : st.cartitems.filter (fun it => it.user_id == uid) = []) :
    checkout st uid fails = .error .emptyCart := by
  simp [checkout, h]

/-- If every per-item update statement raises, the catalog is untouched. -/
theorem applyDecrements_of_all_fail (fails : Nat → Bool)
    (hf : ∀ j, fails j = true) :
    ∀ (items : List CartItemDoc) (ps : List ProductDoc) (i : Nat),
      applyDecrements fails ps i items = ps := by
  intro items
  induction items with
  | nil => intro ps i; rfl
  | cons it rest ih => intro ps i; simp [applyDecrements, hf i, ih]

/-- Under pairwise-distinct document ids, `update_one`'s first-match update
acts pointwise on the catalog. -/
theorem decrementInventory_eq_map (pid : Nat) (q : Int) :
    ∀ ps : List ProductDoc, ps.Pairwise (fun a b => a.id ≠ b.id) →
      decrementInventory pid q ps =
        ps.map (fun d => if d.id = pid then
          { d with inventory := some (d.inventory.getD 0 - q) } else d) := by
  intro ps
  induction ps with
  | nil => intro h; rfl
  | cons p ps ih =>
      intro h
      rw [List.pairwise_cons] at h
      obtain ⟨hhead, htail⟩ := h
      by_cases hid : p.id = pid
      · have hmap : ps.map (fun d => if d.id = pid then
            { d with inventory := some (d.inventory.getD 0 - q) } else d) = ps := by
          rw [List.map_congr_left (fun d hd => if_neg (hid ▸ (hhead d hd).symm))]
          simp
        simp [decrementInventory, hid, hmap]
      · have hne : (p.id == pid) = false := by simp [hid]
        simp [decrementInventory, hne, hid, ih htail]

/-- `decrementInventory` never changes document ids. -/
theorem decrementInventory_ids (pid : Nat) (q : Int) :
    ∀ ps : List ProductDoc,
      (decrementInventory pid q ps).map (fun d => d.id) = ps.map (fun d => d.id) := by
  intro ps
  induction ps with
  | nil => rfl
  | cons p ps ih =>
      by_cases hid : (p.id == pid) = true
      · simp [decrementInventory, hid]
      · simp only [decrementInventory, hid]
        simp [ih]

/-- Distinctness of ids survives a decrement. -/
theorem decrementInventory_pairwise (pid : Nat) (q : Int) (ps : List ProductDoc)
    (h : ps.Pairwise (fun a b => a.id ≠ b.id)) :
    (decrementInventory pid q ps).Pairwise (fun a b => a.id ≠ b.id) := by
  have hids := decrementInventory_ids pid q ps
  rw [← List.pairwise_map (f := fun d : ProductDoc => d.id) (R := fun a b => a ≠ b)] at h ⊢
  rw [hids]
  exact h

/-- Peeling one cart item off the expected-inventory spec. -/
theorem specExpectedInventory_cons (it : CartItemDoc) (rest : List CartItemDoc)
    (d : ProductDoc) :
    specExpectedInventory rest
        (if d.id = it.product_id then
          { d with inventory := some (d.inventory.getD 0 - it.quantity) } else d) =
      specExpectedInventory (it :: rest) d := by
  by_cases hid : d.id = it.product_id
  · rw [if_pos hid]
    have hcons : (it :: rest).filter (fun x => x.product_id == d.id) =
        it :: rest.filter (fun x => x.product_id == d.id) := by
      simp [List.filter_cons, hid]
    by_cases hemp : (rest.filter (fun x => x.product_id == d.id)).isEmpty
    · simp [specExpectedInventory, hemp, hcons]
      rw [List.isEmpty_iff] at hemp
      simp [hemp]
    · simp [specExpectedInventory, hemp, hcons]
      ring
  · rw [if_neg hid]
    have hcons : (it :: rest).filter (fun x => x.product_id == d.id) =
        rest.filter (fun x => x.product_id == d.id) := by
      have : (it.product_id == d.id) = false := by
        simp
        exact fun hc => hid hc.symm
      simp [List.filter_cons, this]
    simp [specExpectedInventory, hcons]

/-- A failure-free decrement pass realises the expected-inventory spec on a
catalog with pairwise-distinct ids. -/
theorem applyDecrements_no_failures :
    ∀ (items : List CartItemDoc) (ps : List ProductDoc) (i : Nat),
      ps.Pairwise (fun a b => a.id ≠ b.id) →
      applyDecrements (fun _ => false) ps i items =
        ps.map (specExpectedInventory items) := by
  intro items
  induction items with
  | nil =>
      intro ps i h
      rw [List.map_congr_left
        (fun d _ => by simp [specExpectedInventory] :
          ∀ d ∈ ps, specExpectedInventory [] d = d)]
      simp [applyDecrements]
  | cons it rest ih =>
      intro ps i h
      have hstep : applyDecrements (fun _ => false) ps i (it :: rest) =
          applyDecrements (fun _ => false)
            (decrementInventory it.product_id it.quantity ps) (i + 1) rest := by
        simp [applyDecrements]
      rw [hstep, ih _ _ (decrementInventory_pairwise _ _ _ h),
          decrementInventory_eq_map _ _ _ h, List.map_map]
      apply List.map_congr_left
      intro d _
      exact specExpectedInventory_cons it rest d

/-! ### Claim theorems -/

/-- Claim C1: for every checkout call on a non-empty cart, the persisted
order's total_amount equals the sum over the loaded cart items of stored
unit_price × quantity; the total is computed only from the cart rows'
captured prices, so replacing the whole product catalog (in particular any
base_price change after add-to-cart) yields an order with the same total. -/
theorem checkout_total_amount_correct (st : Store) (uid : String)
    (fails : Nat → Bool)
    (h : st.cartitems.filter (fun it => it.user_id == uid) ≠ []) :
    ∃ st' oid, checkout st uid fails = .ok (st', oid) ∧
      ∃ ord ∈ st'.orders,
        ord.id = oid ∧
        ord.total_amount =
          ((st.cartitems.filter (fun it => it.user_id == uid)).map
            (fun it => it.unit_price * (it.quantity : ℚ))).sum ∧
        ∀ newCatalog : List ProductDoc,
          ∃ st2 oid2,
            checkout { st with products := newCatalog } uid fails = .ok (st2, oid2) ∧
            ∃ ord2 ∈ st2.orders, ord2.id = oid2 ∧
              ord2.total_amount = ord.total_amount := by
  refine ⟨_, _, checkout_eq_of_ne_nil st uid fails h, ?_⟩
  refine ⟨_, List.mem_append_right _ (List.mem_singleton_self _), rfl, rfl, ?_⟩
  intro newCatalog
  refine ⟨_, _, checkout_eq_of_ne_nil { st with products := newCatalog } uid fails h, ?_⟩
  exact ⟨_, List.mem_append_right _ (List.mem_singleton_self _), rfl, rfl⟩

/-- Claim C1, evaluated: checkout of the sample store totals 2 × 10 = 20. -/
theorem checkout_total_amount_correct_witness :
    ∃ st' oid, checkout sampleStore "u" (fun _ => false) = .ok (st', oid) ∧
      ∃ ord ∈ st'.orders,
        ord.id = oid ∧
        ord.total_amount =
          ((sampleStore.cartitems.filter (fun it => it.user_id == "u")).map
            (fun it => it.unit_price * (it.quantity : ℚ))).sum ∧
        ∀ newCatalog : List ProductDoc,
          ∃ st2 oid2,
            checkout { sampleStore with products := newCatalog } "u" (fun _ => false) =
              .ok (st2, oid2) ∧
            ∃ ord2 ∈ st2.orders, ord2.id = oid2 ∧
              ord2.total_amount = ord.total_amount :=
  checkout_total_amount_correct sampleStore "u" (fun _ => false) (by decide)

/-- Claim C2: checkout succeeds whatever per-item decrement failures occur:
the resulting orders, cart and returned id are independent of the failure
pattern, the order is persisted, if every decrement fails the catalog is
left untouched while checkout still returns ok, and if no decrement fails
each referenced product (in a catalog of distinct ids) has its inventory
decremented by the referencing items' quantities. -/
theorem checkout_swallows_decrement_failures (st : Store) (uid : String)
    (f g : Nat → Bool)
    (h : st.cartitems.filter (fun it => it.user_id == uid) ≠ []) :
    ∃ st1 oid1 st2 oid2,
      checkout st uid f = .ok (st1, oid1) ∧
      checkout st uid g = .ok (st2, oid2) ∧
      st1.orders = st2.orders ∧ oid1 = oid2 ∧ st1.cartitems = st2.cartitems ∧
      (∃ ord ∈ st1.orders, ord.id = oid1) ∧
      ((∀ j, f j = true) → st1.products = st.products) ∧
      ((∀ j, f j = false) →
        st.products.Pairwise (fun a b => a.id ≠ b.id) →
        st1.products = st.products.map (specExpectedInventory
          (st.cartitems.filter (fun it => it.user_id == uid)))) := by
  refine ⟨_, _, _, _, checkout_eq_of_ne_nil st uid f h,
    checkout_eq_of_ne_nil st uid g h, rfl, rfl, rfl,
    ⟨_, List.mem_append_right _ (List.mem_singleton_self _), rfl⟩, ?_, ?_⟩
  · intro hf
    exact applyDecrements_of_all_fail f hf _ _ _
  · intro hf hpair
    have hfun : f = fun _ => false := funext hf
    show applyDecrements f st.products 0 _ = _
    rw [hfun]
    exact applyDecrements_no_failures _ _ _ hpair

/-- Claim C2, evaluated: all decrements failing vs. none failing give the
same orders, cart and id on the sample store. -/
theorem checkout_swallows_decrement_failures_witness :
    ∃ st1 oid1 st2 oid2,
      checkout sampleStore "u" (fun _ => true) = .ok (st1, oid1) ∧
      checkout sampleStore "u" (fun _ => false) = .ok (st2, oid2) ∧
      st1.orders = st2.orders ∧ oid1 = oid2 ∧ st1.cartitems = st2.cartitems ∧
      (∃ ord ∈ st1.orders, ord.id = oid1) ∧
      ((∀ _j : Nat, (true : Bool) = true) → st1.products = sampleStore.products) ∧
      ((∀ _j : Nat, (true : Bool) = false) →
        sampleStore.products.Pairwise (fun a b => a.id ≠ b.id) →
        st1.products = sampleStore.products.map (specExpectedInventory
          (sampleStore.cartitems.filter (fun it => it.user_id == "u")))) :=
  checkout_swallows_decrement_failures sampleStore "u" (fun _ => true)
    (fun _ => false) (by decide)

/-- Claim C3: checkout with no cart rows for the user fails with the
empty-cart error, whose HTTP status is 400.  The exception is raised before
any write, so the `.error` result carries no state: no order is created and
the store is unchanged. -/
theorem checkout_empty_cart_fails (st : Store) (uid : String) (fails : Nat → Bool)
    (h : st.cartitems.filter (fun it => it.user_id == uid) = []) :
    checkout st uid fails = .error .emptyCart ∧ Err.httpStatus .emptyCart = 400 :=
  ⟨checkout_eq_of_nil st uid fails h, rfl⟩

/-- Claim C3, evaluated: user `"nobody"` has no cart rows in the sample
store, so checkout errors with the empty-cart error. -/
theorem checkout_empty_cart_fails_witness :
    checkout sampleStore "nobody" (fun _ => false) = .error .emptyCart ∧
      Err.httpStatus .emptyCart = 400 :=
  checkout_empty_cart_fails sampleStore "nobody" (fun _ => false) (by decide)

/-- Claim C4: after any successful checkout, the resulting store holds no
cart rows for the user, whatever the decrement failure pattern was. -/
theorem checkout_clears_cart (st : Store) (uid : String) (fails : Nat → Bool)
    (st' : Store) (oid : Nat)
    (h : checkout st uid fails = .ok (st', oid)) :
    st'.cartitems.filter (fun it => it.user_id == uid) = [] := by
  by_cases hc : st.cartitems.filter (fun it => it.user_id == uid) = []
  · rw [checkout_eq_of_nil st uid fails hc] at h
    cases h
  · rw [checkout_eq_of_ne_nil st uid fails hc] at h
    simp only [Except.ok.injEq, Prod.mk.injEq] at h
    obtain ⟨h1, h2⟩ := h
    subst h1
    simp [List.filter_filter]

/-- Claim C4, evaluated: checking out the sample store yields the concrete
post-checkout store, which holds no cart rows for `"u"`. -/
theorem checkout_clears_cart_witness :
    sampleStoreAfterCheckout.cartitems.filter (fun it => it.user_id == "u") = [] := by
  have hyp : checkout sampleStore "u" (fun _ => false) =
      .ok (sampleStoreAfterCheckout, 3) := by
    rw [checkout_eq_of_ne_nil sampleStore "u" (fun _ => false) (by decide)]
    simp [sampleStore, sampleStoreAfterCheckout, sampleItem, sampleProduct,
          bareProduct, applyDecrements, decrementInventory, snapshotItem]
    norm_num
  exact checkout_clears_cart sampleStore "u" (fun _ => false)
    sampleStoreAfterCheckout 3 hyp

/-- Claim C5: when the slug resolves to a product carrying a base_price, a
valid add_to_cart call appends exactly one new cart row whose unit_price is
that base_price at the moment of the call; every existing row — including
earlier rows for the same user and product — is left in place, so repeated
calls accumulate rows instead of merging quantities. -/
theorem add_to_cart_appends_row_with_captured_price (st : Store)
    (body : AddToCart) (prod : ProductDoc) (bp : ℚ)
    (hfind : st.products.find? (fun d => d.slug == body.product_slug) = some prod)
    (hbp : prod.base_price = some bp) (hq : 1 ≤ body.quantity) (hp : 0 ≤ bp) :
    ∃ st', add_to_cart st body = .ok st' ∧
      st'.cartitems = st.cartitems ++
        [{ id := st.nextId, user_id := body.user_id, product_id := prod.id,
           quantity := body.quantity, color := body.color, texture := body.texture,
           selected_features := body.selected_features.getD [],
           unit_price := bp }] ∧
      st'.cartitems.length = st.cartitems.length + 1 := by
  have hstep : add_to_cart st body = .ok { st with
      cartitems := st.cartitems ++
        [{ id := st.nextId, user_id := body.user_id, product_id := prod.id,
           quantity := body.quantity, color := body.color, texture := body.texture,
           selected_features := body.selected_features.getD [],
           unit_price := bp }],
      nextId := st.nextId + 1 } := by
    simp only [add_to_cart, hfind, hbp, Option.getD_some]
    rw [if_pos ⟨hq, hp⟩]
  exact ⟨_, hstep, rfl, by simp⟩

/-- Claim C5, evaluated: adding one more `pencil-x1` for `"u"` appends a
second row at the current base_price 10 next to the existing row. -/
theorem add_to_cart_appends_row_with_captured_price_witness :
    ∃ st', add_to_cart sampleStore
        { user_id := "u", product_slug := "pencil-x1", quantity := 1 } = .ok st' ∧
      st'.cartitems = sampleStore.cartitems ++
        [{ id := sampleStore.nextId, user_id := "u", product_id := sampleProduct.id,
           quantity := 1, color := none, texture := none,
           selected_features := (none : Option (List String)).getD [],
           unit_price := 10 }] ∧
      st'.cartitems.length = sampleStore.cartitems.length + 1 :=
  add_to_cart_appends_row_with_captured_price sampleStore
    { user_id := "u", product_slug := "pencil-x1", quantity := 1 }
    sampleProduct 10 (by decide) (by decide) (by decide) (by decide)

/-- Claim C6: createProduct fails with the conflict error (HTTP 400) when a
product with the same slug exists — the `.error` result carries no state, so
the existing product is untouched — and otherwise appends the new document
and succeeds. -/
theorem create_product_unique_slug (st : Store) (p : Product)
    (hv : 0 ≤ p.base_price) :
    ((∃ d ∈ st.products, d.slug = p.slug) →
        create_product_endpoint st p = .error .conflict ∧
          Err.httpStatus .conflict = 400) ∧
    ((∀ d ∈ st.products, d.slug ≠ p.slug) →
        ∃ st', create_product_endpoint st p = .ok st' ∧
          st'.products = st.products ++ [p.toDoc st.nextId]) := by
  constructor
  · rintro ⟨d, hd, hslug⟩
    have hsome : (st.products.find? (fun d => d.slug == p.slug)).isSome :=
      List.find?_isSome.mpr ⟨d, hd, by simp [hslug]⟩
    obtain ⟨d', hd'⟩ := Option.isSome_iff_exists.mp hsome
    exact ⟨by simp [create_product_endpoint, hv, hd'], rfl⟩
  · intro hall
    have hnone : st.products.find? (fun d => d.slug == p.slug) = none :=
      List.find?_eq_none.mpr (fun x hx => by simpa using hall x hx)
    refine ⟨{ st with
              products := st.products ++ [p.toDoc st.nextId],
              nextId := st.nextId + 1 }, ?_, rfl⟩
    simp [create_product_endpoint, hv, hnone]

/-- Claim C6, evaluated: re-creating slug `"pencil-x1"` conflicts, while the
fresh slug `"case-y2"` is inserted. -/
theorem create_product_unique_slug_witness :
    ((∃ d ∈ sampleStore.products, d.slug = duplicateSlugProduct.slug) →
        create_product_endpoint sampleStore duplicateSlugProduct =
          .error .conflict ∧ Err.httpStatus .conflict = 400) ∧
    ((∀ d ∈ sampleStore.products, d.slug ≠ duplicateSlugProduct.slug) →
        ∃ st', create_product_endpoint sampleStore duplicateSlugProduct = .ok st' ∧
          st'.products = sampleStore.products ++
            [duplicateSlugProduct.toDoc sampleStore.nextId]) :=
  create_product_unique_slug sampleStore duplicateSlugProduct (by decide)

/-- Claim C7: add_to_cart for a slug matching no product fails with the
not-found error (HTTP 404); the exception is raised before the insert, so
the `.error` result carries no state and the cart is unchanged. -/
theorem add_to_cart_unknown_slug_not_found (st : Store) (body : AddToCart)
    (h : ∀ d ∈ st.products, d.slug ≠ body.product_slug) :
    add_to_cart st body = .error .notFound ∧ Err.httpStatus .notFound = 404 := by
  have hnone : st.products.find? (fun d => d.slug == body.product_slug) = none :=
    List.find?_eq_none.mpr (fun x hx => by simpa using h x hx)
  exact ⟨by simp [add_to_cart, hnone], rfl⟩

/-- Claim C7, evaluated: slug `"ghost"` matches nothing in the sample store,
so add_to_cart errors with not-found. -/
theorem add_to_cart_unknown_slug_not_found_witness :
    add_to_cart sampleStore
        { user_id := "u", product_slug := "ghost", quantity := 1 } =
      .error .notFound ∧ Err.httpStatus .notFound = 404 :=
  add_to_cart_unknown_slug_not_found sampleStore
    { user_id := "u", product_slug := "ghost", quantity := 1 } (by decide)

/-- Claim C8: createSubscription fails with not-found (HTTP 404) when the
slug matches no product, and otherwise inserts a Subscription referencing
the user and the matched product with status "active", returning the new
record's id. -/
theorem create_subscription_inserts_active (st : Store)
    (req : SubscriptionRequest)
    (hplan : req.plan ∈ (["monthly", "quarterly", "yearly"] : List String))
    (hr : 1 ≤ req.refill_quantity) :
    ((∀ d ∈ st.products, d.slug ≠ req.product_slug) →
        create_subscription st req = .error .notFound ∧
          Err.httpStatus .notFound = 404) ∧
    (∀ prod : ProductDoc,
        st.products.find? (fun d => d.slug == req.product_slug) = some prod →
        ∃ st', create_subscription st req = .ok (st', st.nextId) ∧
          st'.subscriptions = st.subscriptions ++
            [{ id := st.nextId, user_id := req.user_id, product_id := prod.id,
               plan := req.plan, status := "active",
               refill_quantity := req.refill_quantity }]) := by
  constructor
  · intro hall
    have hnone : st.products.find? (fun d => d.slug == req.product_slug) = none :=
      List.find?_eq_none.mpr (fun x hx => by simpa using hall x hx)
    exact ⟨by simp [create_subscription, hnone], rfl⟩
  · intro prod hfind
    refine ⟨{ st with
              subscriptions := st.subscriptions ++
                [{ id := st.nextId, user_id := req.user_id, product_id := prod.id,
                   plan := req.plan, refill_quantity := req.refill_quantity }],
              nextId := st.nextId + 1 }, ?_, rfl⟩
    simp only [create_subscription, hfind]
    rw [if_pos ⟨hplan, hr⟩]

/-- Claim C8, evaluated: subscribing to `"pencil-x1"` appends the active
subscription, while the unknown slug branch gives not-found. -/
theorem create_subscription_inserts_active_witness :
    ((∀ d ∈ sampleStore.products, d.slug ≠ "pencil-x1") →
        create_subscription sampleStore
            { user_id := "u", product_slug := "pencil-x1" } = .error .notFound ∧
          Err.httpStatus .notFound = 404) ∧
    (∀ prod : ProductDoc,
        sampleStore.products.find? (fun d => d.slug == "pencil-x1") = some prod →
        ∃ st', create_subscription sampleStore
            { user_id := "u", product_slug := "pencil-x1" } =
              .ok (st', sampleStore.nextId) ∧
          st'.subscriptions = sampleStore.subscriptions ++
            [{ id := sampleStore.nextId, user_id := "u", product_id := prod.id,
               plan := "monthly", status := "active", refill_quantity := 2 }]) :=
  create_subscription_inserts_active sampleStore
    { user_id := "u", product_slug := "pencil-x1" } (by decide) (by decide)

/-- Claim C9: when the slug resolves, getInventory succeeds and defaults a
missing inventory field to 0 and a missing in_stock field to true. -/
theorem get_inventory_defaults_missing_fields (st : Store) (slug : String)
    (prod : ProductDoc)
    (hfind : st.products.find? (fun d => d.slug == slug) = some prod) :
    ∃ inv stock, get_inventory st slug = .ok (inv, stock) ∧
      (prod.inventory = none → inv = 0) ∧
      (prod.in_stock = none → stock = true) := by
  refine ⟨prod.inventory.getD 0, prod.in_stock.getD true,
    by simp [get_inventory, hfind], ?_, ?_⟩
  · intro he
    rw [he]
    rfl
  · intro he
    rw [he]
    rfl

/-- Claim C9, evaluated: the `"bare"` document lacks both fields, and the
call reports inventory 0 and in_stock true. -/
theorem get_inventory_defaults_missing_fields_witness :
    ∃ inv stock, get_inventory sampleStore "bare" = .ok (inv, stock) ∧
      (bareProduct.inventory = none → inv = 0) ∧
      (bareProduct.in_stock = none → stock = true) :=
  get_inventory_defaults_missing_fields sampleStore "bare" bareProduct (by decide)

/-- Claim C10: starting from any store whose cart rows all satisfy
quantity ≥ 1 and unit_price ≥ 0, every operation preserves that invariant —
in particular add_to_cart only inserts rows passing the CartItem schema
bounds — and an add_to_cart call with quantity below 1 on an existing
product fails validation, inserting nothing. -/
theorem cartitem_rows_satisfy_schema_bounds (st : Store) (hinv : CartInv st) :
    (∀ (body : AddToCart) (st' : Store),
        add_to_cart st body = .ok st' → CartInv st') ∧
    (∀ (uid : String) (fails : Nat → Bool) (st' : Store) (oid : Nat),
        checkout st uid fails = .ok (st', oid) → CartInv st') ∧
    (∀ (p : Product) (st' : Store),
        create_product_endpoint st p = .ok st' → CartInv st') ∧
    (∀ (req : SubscriptionRequest) (st' : Store) (sid : Nat),
        create_subscription st req = .ok (st', sid) → CartInv st') ∧
    (∀ (body : AddToCart) (prod : ProductDoc),
        st.products.find? (fun d => d.slug == body.product_slug) = some prod →
        body.quantity < 1 →
        add_to_cart st body = .error .validation) := by
  refine ⟨?_, ?_, ?_, ?_, ?_⟩
  · intro body st' hok
    cases hfind : st.products.find? (fun d => d.slug == body.product_slug) with
    | none => simp [add_to_cart, hfind] at hok
    | some prod =>
        simp only [add_to_cart, hfind] at hok
        split at hok
        · rename_i hcond
          simp only [Except.ok.injEq] at hok
          subst hok
          intro it hit
          rcases List.mem_append.mp hit with hmem | hmem
          · exact hinv it hmem
          · rcases List.mem_singleton.mp hmem with rfl
            exact ⟨hcond.1, hcond.2⟩
        · cases hok
  · intro uid fails st' oid hok
    by_cases hc : st.cartitems.filter (fun it => it.user_id == uid) = []
    · rw [checkout_eq_of_nil st uid fails hc] at hok
      cases hok
    · rw [checkout_eq_of_ne_nil st uid fails hc] at hok
      simp only [Except.ok.injEq, Prod.mk.injEq] at hok
      obtain ⟨h1, h2⟩ := hok
      subst h1
      intro it hit
      exact hinv it (List.mem_of_mem_filter hit)
  · intro p st' hok
    simp only [create_product_endpoint] at hok
    split at hok
    · split at hok
      · cases hok
      · simp only [Except.ok.injEq] at hok
        subst hok
        exact hinv
    · cases hok
  · intro req st' sid hok
    simp only [create_subscription] at hok
    split at hok
    · cases hok
    · split at hok
      · simp only [Except.ok.injEq, Prod.mk.injEq] at hok
        obtain ⟨h1, h2⟩ := hok
        subst h1
        exact hinv
      · cases hok
  · intro body prod hfind hq
    simp only [add_to_cart, hfind]
    rw [if_neg]
    rintro ⟨h1, -⟩
    omega

/-- Claim C10, evaluated at the sample store, whose single cart row has
quantity 2 and unit price 10. -/
theorem cartitem_rows_satisfy_schema_bounds_witness :
    (∀ (body : AddToCart) (st' : Store),
        add_to_cart sampleStore body = .ok st' → CartInv st') ∧
    (∀ (uid : String) (fails : Nat → Bool) (st' : Store) (oid : Nat),
        checkout sampleStore uid fails = .ok (st', oid) → CartInv st') ∧
    (∀ (p : Product) (st' : Store),
        create_product_endpoint sampleStore p = .ok st' → CartInv st') ∧
    (∀ (req : SubscriptionRequest) (st' : Store) (sid : Nat),
        create_subscription sampleStore req = .ok (st', sid) → CartInv st') ∧
    (∀ (body : AddToCart) (prod : ProductDoc),
        sampleStore.products.find? (fun d => d.slug == body.product_slug) =
          some prod →
        body.quantity < 1 →
        add_to_cart sampleStore body = .error .validation) :=
  cartitem_rows_satisfy_schema_bounds sampleStore (by decide)

end NeoPencil
